import Mathlib

/-!
Shallow embedding of `simplegcm/gcm.py` (python-simple-gcm), a GCM push
client. The embedding follows the source module: value objects
(`Notification`, `Options`) serialized by the truthiness-filtering mixin,
the `Message` request descriptor, the `Result` object, and the response
reconciliation function `Sender._parse_response`. Python exceptions are
modelled with the `Except` monad over `PyError`; Python dict values are
modelled by `PyVal`; Python dicts by insertion-ordered association lists
with upsert (`dinsert`) and lookup (`dlookup`).
-/

namespace SimpleGcm

/-- Python scalar-ish values appearing in the payloads this client builds:
strings, ints, bools, and lists of strings (the loc-args fields). -/
inductive PyVal where
  | str (s : String)
  | int (n : Int)
  | bool (b : Bool)
  | strlist (l : List String)
deriving DecidableEq

/-- Python truthiness for `PyVal`: empty string, zero, `False` and the
empty list are falsy; everything else is truthy. -/
def PyVal.truthy : PyVal → Bool
  | .str s => !s.isEmpty
  | .int n => n != 0
  | .bool b => b
  | .strlist l => !l.isEmpty

/-- A value of the serialized message body: either a scalar `PyVal` or a
nested JSON object (used for the `notification` and `data` sub-dicts). -/
inductive BVal where
  | v (x : PyVal)
  | obj (d : List (String × PyVal))
deriving DecidableEq

/-- Python `d.get(k)` / `d[k]` lookup on an insertion-ordered dict. -/
def dlookup (k : String) : List (String × α) → Option α
  | [] => none
  | (k1, v) :: rest => if k = k1 then some v else dlookup k rest

/-- Python `d[k] = v` on an insertion-ordered dict: an existing key keeps
its position and gets the new value, a new key is appended. -/
def dinsert (k : String) (v : α) : List (String × α) → List (String × α)
  | [] => [(k, v)]
  | (k1, v1) :: rest =>
      if k = k1 then (k, v) :: rest else (k1, v1) :: dinsert k v rest

/-- `InnerDictSerializeMixin.data` (gcm.py line 43): keep exactly the
fields bound to a truthy value, in declaration order
(`{k: v for (k, v) in self.__dict__.items() if v}`). -/
def serializeData (fs : List (String × Option PyVal)) : List (String × PyVal) :=
  fs.filterMap fun kv =>
    match kv.2 with
    | some v => if v.truthy then some (kv.1, v) else none
    | none => none

/-- `Notification` (gcm.py lines 47-101): twelve optional fields, all
defaulting to `None`. -/
structure Notification where
  title : Option PyVal := none
  body : Option PyVal := none
  icon : Option PyVal := none
  sound : Option PyVal := none
  badge : Option PyVal := none
  tag : Option PyVal := none
  color : Option PyVal := none
  click_action : Option PyVal := none
  body_loc_key : Option PyVal := none
  body_loc_args : Option PyVal := none
  title_loc_key : Option PyVal := none
  title_loc_args : Option PyVal := none
deriving DecidableEq

/-- The `__dict__` of a `Notification`, in the assignment order of
`Notification.__init__`. -/
def Notification.fields (n : Notification) : List (String × Option PyVal) :=
  [("title", n.title), ("body", n.body), ("icon", n.icon),
   ("sound", n.sound), ("badge", n.badge), ("tag", n.tag),
   ("color", n.color), ("click_action", n.click_action),
   ("body_loc_key", n.body_loc_key), ("body_loc_args", n.body_loc_args),
   ("title_loc_key", n.title_loc_key), ("title_loc_args", n.title_loc_args)]

/-- `Notification(**kw)`: each declared keyword argument takes the value
bound to its name in `kw`, defaulting to `None` (modelled for keyword
dicts whose keys are among the declared parameter names, which is how the
source invokes it). -/
def Notification.ofKwargs (kw : List (String × PyVal)) : Notification :=
  { title := dlookup "title" kw
  , body := dlookup "body" kw
  , icon := dlookup "icon" kw
  , sound := dlookup "sound" kw
  , badge := dlookup "badge" kw
  , tag := dlookup "tag" kw
  , color := dlookup "color" kw
  , click_action := dlookup "click_action" kw
  , body_loc_key := dlookup "body_loc_key" kw
  , body_loc_args := dlookup "body_loc_args" kw
  , title_loc_key := dlookup "title_loc_key" kw
  , title_loc_args := dlookup "title_loc_args" kw }

/-- `Notification.data` via `InnerDictSerializeMixin`. -/
def Notification.data (n : Notification) : List (String × PyVal) :=
  serializeData n.fields

/-- `Options` (gcm.py lines 104-141): eight optional fields. -/
structure Options where
  collapse_key : Option PyVal := none
  priority : Option PyVal := none
  content_available : Option PyVal := none
  delay_while_idle : Option PyVal := none
  time_to_live : Option PyVal := none
  delivery_receipt_requested : Option PyVal := none
  dry_run : Option PyVal := none
  restricted_package_name : Option PyVal := none
deriving DecidableEq

/-- The `__dict__` of an `Options`, in the assignment order of
`Options.__init__` (gcm.py lines 134-141). -/
def Options.fields (o : Options) : List (String × Option PyVal) :=
  [("collapse_key", o.collapse_key), ("priority", o.priority),
   ("content_available", o.content_available),
   ("delay_while_idle", o.delay_while_idle),
   ("time_to_live", o.time_to_live),
   ("delivery_receipt_requested", o.delivery_receipt_requested),
   ("dry_run", o.dry_run),
   ("restricted_package_name", o.restricted_package_name)]

/-- `Options(**kw)`, analogous to `Notification.ofKwargs`. -/
def Options.ofKwargs (kw : List (String × PyVal)) : Options :=
  { collapse_key := dlookup "collapse_key" kw
  , priority := dlookup "priority" kw
  , content_available := dlookup "content_available" kw
  , delay_while_idle := dlookup "delay_while_idle" kw
  , time_to_live := dlookup "time_to_live" kw
  , delivery_receipt_requested := dlookup "delivery_receipt_requested" kw
  , dry_run := dlookup "dry_run" kw
  , restricted_package_name := dlookup "restricted_package_name" kw }

/-- `Options.data` via `InnerDictSerializeMixin`. -/
def Options.data (o : Options) : List (String × PyVal) :=
  serializeData o.fields

/-- Python exceptions raised by this module. `gcm` is `GCMException`;
`unboundLocal` models the `UnboundLocalError` raised when a function
reads a local variable that was never assigned; `nameError` models the
`NameError` raised when an undefined global name is evaluated. -/
inductive PyError where
  | gcm (msg : String)
  | valueError (msg : String)
  | typeError (msg : String)
  | keyError (k : String)
  | nameError (n : String)
  | unboundLocal (n : String)
deriving DecidableEq

/-- `True` iff the error is a `GCMException`. -/
def PyError.isGCM : PyError → Bool
  | .gcm _ => true
  | _ => false

/-- Python truthiness of an optional string (`None` and `""` are falsy). -/
def truthyOptStr : Option String → Bool
  | none => false
  | some s => !s.isEmpty

/-- Python truthiness of an optional list (`None` and `[]` are falsy). -/
def truthyOptList : Option (List String) → Bool
  | none => false
  | some l => !l.isEmpty

/-- `Message` state after construction (gcm.py lines 212-233). -/
structure Message where
  _to : Option String
  _registration_ids : Option (List String)
  _data : Option (List (String × PyVal))
  _notif : Option Notification
  _opt : Option Options
deriving DecidableEq

/-- `Message.__init__` (gcm.py lines 212-233): requires, by Python
truthiness, exactly one of `to` / `registration_ids`; builds the embedded
`Notification` / `Options` from the supplied keyword dicts. -/
def Message.init (to_ : Option String) (registration_ids : Option (List String))
    (data : Option (List (String × PyVal)))
    (notification : Option (List (String × PyVal)))
    (options : Option (List (String × PyVal))) : Except PyError Message :=
  if !(truthyOptStr to_ || truthyOptList registration_ids) then
    .error (.valueError "You must provide \"registration_ids\" or \"to\"")
  else if truthyOptStr to_ && truthyOptList registration_ids then
    .error (.valueError "You must provide \"registration_ids\" or \"to\" no both")
  else
    .ok { _to := to_
        , _registration_ids := registration_ids
        , _data := data
        , _notif := notification.map Notification.ofKwargs
        , _opt := options.map Options.ofKwargs }

/-- `Message.body` (gcm.py lines 235-261): the wire payload, built in
source order (`to`, `registration_ids`, `notification`, the flattened
`Options.data`, `data`), each guarded by Python truthiness as in the
source. The option field names never collide with the other payload
keys, so dict update is modelled by concatenation. -/
def Message.body (m : Message) : List (String × BVal) :=
  (match m._to with
   | some s => if !s.isEmpty then [("to", BVal.v (.str s))] else []
   | none => [])
  ++ (match m._registration_ids with
      | some l => if !l.isEmpty then [("registration_ids", BVal.v (.strlist l))] else []
      | none => [])
  ++ (match m._notif with
      | some n => [("notification", BVal.obj n.data)]
      | none => [])
  ++ (match m._opt with
      | some o => o.data.map (fun kv => (kv.1, BVal.v kv.2))
      | none => [])
  ++ (match m._data with
      | some d => if !d.isEmpty then [("data", BVal.obj d)] else []
      | none => [])

/-- `Message.build_retry_message` (gcm.py lines 263-278): a new message
from the base message, restricted to the given registration ids; the
embedded notification and options are passed through their `.data`
serializations back into the constructor. -/
def Message.build_retry_message (message : Message)
    (registration_ids : List String) : Except PyError Message :=
  Message.init none (some registration_ids) message._data
    (message._notif.map Notification.data)
    (message._opt.map Options.data)

/-- One entry of the decoded 200-response `results` array: the keys the
source reads, `None` modelling an absent key. -/
structure REntry where
  message_id : Option PyVal := none
  registration_id : Option PyVal := none
  error : Option String := none
deriving DecidableEq

/-- The decoded JSON body of a response: the top-level keys the source
reads, `None` modelling an absent key (reading an absent key raises
`KeyError`). -/
structure RespBody where
  results : Option (List REntry) := none
  canonical_ids : Option PyVal := none
  multicast_id : Option PyVal := none
deriving DecidableEq

/-- The raw HTTP response handed to `Sender._parse_response`:
status code, headers (string-valued, as in `requests`), the raw body
text (`response.content`), and the decoded JSON body when the body is
valid JSON (`response.json()` raises otherwise, modelled by `none`). -/
structure HTTPResponse where
  status_code : Nat
  headers : List (String × String) := []
  content : String := ""
  json : Option RespBody := none
deriving DecidableEq

/-- `Result` (gcm.py lines 144-179). `backoff` holds what
`response.headers.get` returned: the raw header string, as a `PyVal`. -/
structure Result where
  canonical_ids : Option PyVal := none
  multicast_id : Option PyVal := none
  success : List (String × PyVal) := []
  failure : List (String × String) := []
  unregistered : List String := []
  unavailables : Option (List String) := none
  backoff : Option PyVal := none
  message : Option Message := none
  raw_result : Option RespBody := none
deriving DecidableEq

/-- `Result.get_retry_message` (gcm.py lines 181-190). When
`self.unavailables` is truthy the source evaluates
`klass.build_retry_message(message, self.unavailables)` where `message`
is an undefined global name, so Python raises `NameError` before any
retry message is built; when it is falsy (`None` or `[]`) the method
returns `None`. -/
def Result.get_retry_message (r : Result) : Except PyError (Option Message) :=
  match r.unavailables with
  | none => .ok none
  | some l => if l.isEmpty then .ok none else .error (.nameError "message")

/-- The local classification state of the 200-response loop in
`Sender._parse_response` (gcm.py lines 353-372). The source builds a
local `canonical_ids` dict here but never copies it into the `Result`. -/
structure ClassifyState where
  success : List (String × PyVal) := []
  failure : List (String × String) := []
  canonical_ids : List (String × PyVal) := []
  unregistered : List String := []
  unavailables : List String := []
deriving DecidableEq

/-- One iteration of the 200-response loop (gcm.py lines 359-372): an
entry with a `message_id` goes to `success` (plus `canonical_ids` when
it also carries a `registration_id`); otherwise the entry's `error` is
read (`KeyError` if absent): `Unavailable` / `InternalServerError` go to
`unavailables`, `NotRegistered` to `unregistered`, anything else to
`failure`. -/
def classifyStep (st : ClassifyState) (reg_id : String) (resp : REntry) :
    Except PyError ClassifyState :=
  match resp.message_id with
  | some mid =>
    let st1 := { st with success := dinsert reg_id mid st.success }
    match resp.registration_id with
    | some tok => .ok { st1 with canonical_ids := dinsert reg_id tok st1.canonical_ids }
    | none => .ok st1
  | none =>
    match resp.error with
    | none => .error (.keyError "error")
    | some err =>
      if err = "Unavailable" || err = "InternalServerError" then
        .ok { st with unavailables := st.unavailables ++ [reg_id] }
      else if err = "NotRegistered" then
        .ok { st with unregistered := st.unregistered ++ [reg_id] }
      else
        .ok { st with failure := dinsert reg_id err st.failure }

/-- The whole 200-response loop: `for reg_id, resp in zip(r_ids, results)`. -/
def classifyAll (st : ClassifyState) : List (String × REntry) → Except PyError ClassifyState
  | [] => .ok st
  | (r, e) :: rest =>
    match classifyStep st r e with
    | .error pe => .error pe
    | .ok st1 => classifyAll st1 rest

/-- `Sender._parse_response` (gcm.py lines 323-387), as a function of the
message and the raw response. 400 and 401 raise `GCMException`; 5xx
synthesizes a full-retry `Result` without touching the body; 200 decodes
the body, reads `results` (`KeyError` if absent), zips it against
`message._registration_ids` (`TypeError` if that is `None`), classifies
each pair, then reads the top-level `canonical_ids` and `multicast_id`
keys; any other status falls through the dispatch without assigning the
local `data`, so `return data` raises `UnboundLocalError`. -/
def Sender.parse_response (message : Message) (response : HTTPResponse) :
    Except PyError Result :=
  if response.status_code = 400 then
    .error (.gcm response.content)
  else if response.status_code = 401 then
    .error (.gcm "Unauthorized API_KEY")
  else if 500 ≤ response.status_code ∧ response.status_code ≤ 599 then
    .ok { raw_result := none
        , message := some message
        , canonical_ids := none
        , multicast_id := none
        , success := []
        , failure := []
        , unregistered := []
        , unavailables := message._registration_ids
        , backoff := (dlookup "Retry-After" response.headers).map PyVal.str }
  else if response.status_code = 200 then
    match response.json with
    | none => .error (.valueError "No JSON object could be decoded")
    | some resp_data =>
      match resp_data.results with
      | none => .error (.keyError "results")
      | some results =>
        match message._registration_ids with
        | none => .error (.typeError "zip argument 1 must support iteration")
        | some r_ids =>
          match classifyAll {} (r_ids.zip results) with
          | .error pe => .error pe
          | .ok st =>
            match resp_data.canonical_ids with
            | none => .error (.keyError "canonical_ids")
            | some cids =>
              match resp_data.multicast_id with
              | none => .error (.keyError "multicast_id")
              | some mid =>
                .ok { raw_result := some resp_data
                    , message := some message
                    , canonical_ids := some cids
                    , multicast_id := some mid
                    , success := st.success
                    , failure := st.failure
                    , unregistered := st.unregistered
                    , unavailables := some st.unavailables
                    , backoff := (dlookup "Retry-After" response.headers).map PyVal.str }
  else
    .error (.unboundLocal "data")

/-- `Sender.send` (gcm.py lines 407-418) given the transport response:
a missing API key raises `ValueError` before transport; otherwise the
response is interpreted by `Sender._parse_response`. -/
def Sender.send (api_key : Option String) (message : Message)
    (response : HTTPResponse) : Except PyError Result :=
  match api_key with
  | none => .error (.valueError "The API KEY has not been set yet!")
  | some _ => Sender.parse_response message response

/-- The entry routes its recipient to `success`: it carries a message id. -/
def entrySuccess (e : REntry) : Prop := e.message_id ≠ none

/-- The entry routes its recipient to `unavailables`. -/
def entryUnavail (e : REntry) : Prop :=
  e.message_id = none ∧
    (e.error = some "Unavailable" ∨ e.error = some "InternalServerError")

/-- The entry routes its recipient to `unregistered`. -/
def entryUnreg (e : REntry) : Prop :=
  e.message_id = none ∧ e.error = some "NotRegistered"

/-- The entry routes its recipient to `failure`. -/
def entryFailure (e : REntry) : Prop :=
  e.message_id = none ∧ ∃ err, e.error = some err ∧ err ≠ "Unavailable" ∧
    err ≠ "InternalServerError" ∧ err ≠ "NotRegistered"

/-- Rebuild the keyword-argument view of an object whose field names are
`names` from a serialized dict `kw` (how `cls(**kw)` binds parameters). -/
def reconstructFields (names : List String) (kw : List (String × PyVal)) :
    List (String × Option PyVal) :=
  names.map fun k => (k, dlookup k kw)

/-- Exactly one of four propositions holds. -/
def ExactlyOneOfFour (a b c d : Prop) : Prop :=
  (a ∧ ¬b ∧ ¬c ∧ ¬d) ∨ (¬a ∧ b ∧ ¬c ∧ ¬d) ∨
  (¬a ∧ ¬b ∧ c ∧ ¬d) ∨ (¬a ∧ ¬b ∧ ¬c ∧ d)

/-- Fixture: a two-recipient message (claims about 5xx responses). -/
def c2msg : Message :=
  { _to := none, _registration_ids := some ["ABC", "HJK"]
  , _data := none, _notif := none, _opt := none }

/-- Fixture: a 500 response with a Retry-After header. -/
def c2resp : HTTPResponse :=
  { status_code := 500, headers := [("Retry-After", "5")] }

/-- Fixture: a one-recipient message. -/
def c5msg : Message :=
  { _to := none, _registration_ids := some ["ABC"]
  , _data := none, _notif := none, _opt := none }

/-- Fixture: a 302 response, a status the dispatch does not handle. -/
def c5resp302 : HTTPResponse := { status_code := 302, content := "redirect" }

/-- Fixture: a 403 response, another unhandled status. -/
def c5resp403 : HTTPResponse := { status_code := 403, content := "forbidden" }

/-- Fixture: a Result with empty unavailables but non-empty failure and
unregistered, as after a 200 response with only permanent errors. -/
def c4resEmpty : Result :=
  { unavailables := some [], failure := [("ABC", "InvalidRegistration")]
  , unregistered := ["HJK"], message := some c2msg }

/-- Fixture: a Result with one unavailable recipient, as after a 5xx
response or a 200 response with an Unavailable entry. -/
def c4resNonempty : Result :=
  { unavailables := some ["ABC"], message := some c2msg }

/-- Fixture: a one-recipient message for the canonical-id claim. -/
def c3msg : Message :=
  { _to := none, _registration_ids := some ["A"]
  , _data := none, _notif := none, _opt := none }

/-- Fixture: a result entry carrying both a message id and a replacement
token. -/
def c3entry : REntry :=
  { message_id := some (.str "m1"), registration_id := some (.str "NEW") }

/-- Fixture: a 200 body whose single entry carries a canonical id, with
the top-level canonical_ids count set to 1. -/
def c3body : RespBody :=
  { results := some [c3entry], canonical_ids := some (.int 1)
  , multicast_id := some (.int 77) }

/-- Fixture: the 200 response wrapping `c3body`. -/
def c3resp : HTTPResponse := { status_code := 200, json := some c3body }

/-- Fixture: a to-addressed message (no registration ids). -/
def c10msg : Message :=
  { _to := some "/topic/fake", _registration_ids := none
  , _data := none, _notif := none, _opt := none }

/-- Fixture: a 200 response with a one-entry results array, as the
provider returns for a single-token `to` send. -/
def c10resp : HTTPResponse :=
  { status_code := 200
  , json := some { results := some [{ message_id := some (.int 10) }]
                 , canonical_ids := some (.int 0)
                 , multicast_id := some (.int 1) } }

/-- Fixture: the first result entry of the four-recipient 200 example:
a message id plus a replacement token. -/
def c1e0 : REntry :=
  { message_id := some (.int 100), registration_id := some (.str "newToken123") }

/-- Fixture: the four result entries (ok+canonical, Unavailable,
NotRegistered, InvalidRegistration). -/
def c1results : List REntry :=
  [c1e0, { error := some "Unavailable" }, { error := some "NotRegistered" },
   { error := some "InvalidRegistration" }]

/-- Fixture: the 200 body of the four-recipient example. -/
def c1body : RespBody :=
  { results := some c1results, canonical_ids := some (.int 1)
  , multicast_id := some (.int 1) }

/-- Fixture: the four-recipient message. -/
def c1msg : Message :=
  { _to := none
  , _registration_ids := some ["oldToken123", "ABC123", "CBA123", "123ABC"]
  , _data := some [("score", .int 5)], _notif := none, _opt := none }

/-- Fixture: the 200 response wrapping `c1body`. -/
def c1resp : HTTPResponse := { status_code := 200, json := some c1body }

/-- Fixture: the Result the code produces for the four-recipient
example. -/
def c1res : Result :=
  { canonical_ids := some (.int 1), multicast_id := some (.int 1)
  , success := [("oldToken123", .int 100)]
  , failure := [("123ABC", "InvalidRegistration")]
  , unregistered := ["CBA123"], unavailables := some ["ABC123"]
  , backoff := none, message := some c1msg, raw_result := some c1body }

/-- Fixture: a message with a duplicated recipient token. -/
def c6msg : Message :=
  { _to := none, _registration_ids := some ["A", "A"]
  , _data := none, _notif := none, _opt := none }

/-- Fixture: a 200 body whose two entries are ok and Unavailable. -/
def c6body : RespBody :=
  { results := some [{ message_id := some (.int 10) },
                     { error := some "Unavailable" }]
  , canonical_ids := some (.int 0), multicast_id := some (.int 1) }

/-- Fixture: the 200 response wrapping `c6body`. -/
def c6resp : HTTPResponse := { status_code := 200, json := some c6body }

/-- Fixture: the Result the code produces for the duplicated-token
message: token A lands in success and in unavailables. -/
def c6res : Result :=
  { canonical_ids := some (.int 0), multicast_id := some (.int 1)
  , success := [("A", .int 10)], failure := [], unregistered := []
  , unavailables := some ["A"], backoff := none, message := some c6msg
  , raw_result := some c6body }

/-- Fixture: a four-distinct-recipient message for the partition
witness. -/
def c6wmsg : Message :=
  { _to := none, _registration_ids := some ["w1", "w2", "w3", "w4"]
  , _data := none, _notif := none, _opt := none }

/-- Fixture: the four result entries for the partition witness. -/
def c6wresults : List REntry :=
  [{ message_id := some (.int 100) }, { error := some "Unavailable" },
   { error := some "NotRegistered" }, { error := some "InvalidRegistration" }]

/-- Fixture: the 200 body for the partition witness. -/
def c6wbody : RespBody :=
  { results := some c6wresults, canonical_ids := some (.int 0)
  , multicast_id := some (.int 1) }

/-- Fixture: the 200 response for the partition witness. -/
def c6wresp : HTTPResponse := { status_code := 200, json := some c6wbody }

/-- Fixture: the Result the code produces for the partition witness. -/
def c6wres : Result :=
  { canonical_ids := some (.int 0), multicast_id := some (.int 1)
  , success := [("w1", .int 100)], failure := [("w4", "InvalidRegistration")]
  , unregistered := ["w3"], unavailables := some ["w2"], backoff := none
  , message := some c6wmsg, raw_result := some c6wbody }

/-- Fixture: notification kwargs with one truthy and one falsy value. -/
def c7kwN : List (String × PyVal) := [("title", .str "T"), ("badge", .str "")]

/-- Fixture: options kwargs. -/
def c7kwO : List (String × PyVal) := [("priority", .int 2)]

/-- Fixture: the message built from the kwargs above. -/
def c7m : Message :=
  { _to := none, _registration_ids := some ["A", "B"], _data := none
  , _notif := some (Notification.ofKwargs c7kwN)
  , _opt := some (Options.ofKwargs c7kwO) }

/-- Fixture: the retry message rebuilt from `c7m` over its full
recipient list. -/
def c7retry : Message :=
  { _to := none, _registration_ids := some ["A", "B"], _data := none
  , _notif := some (Notification.ofKwargs (Notification.ofKwargs c7kwN).data)
  , _opt := some (Options.ofKwargs (Options.ofKwargs c7kwO).data) }

/-- Fixture: options kwargs with two falsy set values (priority zero,
dry_run False) and one truthy value. -/
def c9kw : List (String × PyVal) :=
  [("priority", .int 0), ("dry_run", .bool false), ("collapse_key", .str "ck")]

/-- Fixture: the Options built from `c9kw`. -/
def c9opt : Options := Options.ofKwargs c9kw

/-- Fixture: a to-addressed message carrying `c9opt`. -/
def c9msg : Message :=
  { _to := some "T", _registration_ids := none, _data := none
  , _notif := none, _opt := some c9opt }

/-- Fixture: options kwargs with a single truthy value. -/
def c9wkw : List (String × PyVal) := [("time_to_live", .int 7)]

/-- Fixture: the Options built from `c9wkw`. -/
def c9wopt : Options := Options.ofKwargs c9wkw

/-- Fixture: a to-addressed message carrying `c9wopt`. -/
def c9wmsg : Message :=
  { _to := some "T", _registration_ids := none, _data := none
  , _notif := none, _opt := some c9wopt }

theorem dlookup_dinsert_self (k : String) (v : α) (d : List (String × α)) :
    dlookup k (dinsert k v d) = some v := by
  induction d with
  | nil => simp [dinsert, dlookup]
  | cons hd tl ih =>
    by_cases hk : k = hd.1
    · simp [dinsert, dlookup, hk]
    · simp [dinsert, dlookup, hk, ih]

theorem dlookup_dinsert_ne (hk : t ≠ k) (v : α) (d : List (String × α)) :
    dlookup t (dinsert k v d) = dlookup t d := by
  induction d with
  | nil => simp [dinsert, dlookup, hk]
  | cons hd tl ih =>
    by_cases hk1 : k = hd.1
    · subst hk1
      simp [dinsert, dlookup, hk]
    · by_cases ht1 : t = hd.1
      · simp [dinsert, dlookup, hk1, ht1]
      · simp [dinsert, dlookup, hk1, ht1, ih]

theorem mem_fst_dinsert (t k : String) (v : α) (d : List (String × α)) :
    t ∈ (dinsert k v d).map Prod.fst ↔ t = k ∨ t ∈ d.map Prod.fst := by
  induction d with
  | nil => simp [dinsert]
  | cons hd tl ih =>
    obtain ⟨k1, v1⟩ := hd
    by_cases hk1 : k = k1
    · subst hk1
      simp [dinsert]
    · simp [dinsert, hk1, ih]
      tauto

theorem dlookup_ne_none_iff_mem (d : List (String × α)) :
    dlookup t d ≠ none ↔ t ∈ d.map Prod.fst := by
  induction d with
  | nil => simp [dlookup]
  | cons hd tl ih =>
    by_cases ht : t = hd.1
    · simp [dlookup, ht]
    · simp [dlookup, ht, ih]

theorem dlookup_eq_none_of_not_mem (d : List (String × α))
    (h : t ∉ d.map Prod.fst) : dlookup t d = none := by
  rw [← dlookup_ne_none_iff_mem] at h
  exact not_not.mp h

theorem nodup_fst_pair_unique (l : List (α × β))
    (hnd : (l.map Prod.fst).Nodup) (h1 : (a, b) ∈ l) (h2 : (a, c) ∈ l) :
    b = c := by
  induction l with
  | nil => cases h1
  | cons hd tl ih =>
    rw [List.map_cons, List.nodup_cons] at hnd
    rcases List.mem_cons.1 h1 with he1 | ht1
    · rcases List.mem_cons.1 h2 with he2 | ht2
      · have he : (a, b) = (a, c) := he1.trans he2.symm
        injection he with hfst hsnd
      · exfalso
        have hmem : a ∈ tl.map Prod.fst := by
          simpa using List.mem_map_of_mem Prod.fst ht2
        rw [← he1] at hnd
        exact hnd.1 hmem
    · rcases List.mem_cons.1 h2 with he2 | ht2
      · exfalso
        have hmem : a ∈ tl.map Prod.fst := by
          simpa using List.mem_map_of_mem Prod.fst ht1
        rw [← he2] at hnd
        exact hnd.1 hmem
      · exact ih hnd.2 ht1 ht2

theorem serializeData_cons_none (k : String) (tl : List (String × Option PyVal)) :
    serializeData ((k, none) :: tl) = serializeData tl := by
  simp [serializeData]

theorem serializeData_cons_truthy (k : String) (v : PyVal)
    (tl : List (String × Option PyVal)) (hv : v.truthy = true) :
    serializeData ((k, some v) :: tl) = (k, v) :: serializeData tl := by
  simp [serializeData, hv]

theorem serializeData_cons_falsy (k : String) (v : PyVal)
    (tl : List (String × Option PyVal)) (hv : v.truthy = false) :
    serializeData ((k, some v) :: tl) = serializeData tl := by
  simp [serializeData, hv]

theorem keys_serializeData_sub (fs : List (String × Option PyVal)) (t : String)
    (h : t ∈ (serializeData fs).map Prod.fst) : t ∈ fs.map Prod.fst := by
  induction fs with
  | nil =>
    simp [serializeData] at h
  | cons hd tl ih =>
    obtain ⟨k, ov⟩ := hd
    rw [List.map_cons, List.mem_cons]
    cases ov with
    | none =>
      rw [serializeData_cons_none] at h
      exact Or.inr (ih h)
    | some v =>
      by_cases hv : v.truthy
      · rw [serializeData_cons_truthy k v tl hv, List.map_cons, List.mem_cons] at h
        rcases h with h1 | h1
        · exact Or.inl h1
        · exact Or.inr (ih h1)
      · have hv0 : v.truthy = false := by simp at hv; exact hv
        rw [serializeData_cons_falsy k v tl hv0] at h
        exact Or.inr (ih h)

theorem mem_serializeData (fs : List (String × Option PyVal)) (k : String)
    (v : PyVal) :
    (k, v) ∈ serializeData fs ↔ (k, some v) ∈ fs ∧ v.truthy = true := by
  induction fs with
  | nil => simp [serializeData]
  | cons hd tl ih =>
    obtain ⟨k1, ov⟩ := hd
    cases ov with
    | none =>
      rw [serializeData_cons_none, ih]
      simp
    | some w =>
      by_cases hw : w.truthy
      · rw [serializeData_cons_truthy k1 w tl hw]
        constructor
        · intro h
          rcases List.mem_cons.1 h with h1 | h1
          · injection h1 with ha hb
            subst ha
            subst hb
            exact ⟨List.mem_cons_self _ _, hw⟩
          · obtain ⟨hm, ht⟩ := ih.1 h1
            exact ⟨List.mem_cons_of_mem _ hm, ht⟩
        · rintro ⟨hm, ht⟩
          rcases List.mem_cons.1 hm with h1 | h1
          · injection h1 with ha hb
            injection hb with hb
            subst ha
            subst hb
            exact List.mem_cons_self _ _
          · exact List.mem_cons_of_mem _ (ih.2 ⟨h1, ht⟩)
      · have hw0 : w.truthy = false := by simp at hw; exact hw
        rw [serializeData_cons_falsy k1 w tl hw0, ih]
        constructor
        · rintro ⟨hm, ht⟩
          exact ⟨List.mem_cons_of_mem _ hm, ht⟩
        · rintro ⟨hm, ht⟩
          rcases List.mem_cons.1 hm with h1 | h1
          · exfalso
            injection h1 with ha hb
            injection hb with hb
            rw [← hb] at hw0
            rw [ht] at hw0
            cases hw0
          · exact ⟨h1, ht⟩

theorem reconstructFields_cons (k : String) (names : List String)
    (kw : List (String × PyVal)) :
    reconstructFields (k :: names) kw =
      (k, dlookup k kw) :: reconstructFields names kw := rfl

theorem reconstructFields_skip (names : List String) (k : String)
    (hk : k ∉ names) (v : PyVal) (kw : List (String × PyVal)) :
    reconstructFields names ((k, v) :: kw) = reconstructFields names kw := by
  induction names with
  | nil => rfl
  | cons n ns ih =>
    rw [List.mem_cons, not_or] at hk
    rw [reconstructFields_cons, reconstructFields_cons, ih hk.2]
    have hne : ¬ n = k := fun h => hk.1 h.symm
    simp [dlookup, hne]

theorem serialize_reconstruct (fs : List (String × Option PyVal))
    (hnd : (fs.map Prod.fst).Nodup) :
    serializeData (reconstructFields (fs.map Prod.fst) (serializeData fs)) =
      serializeData fs := by
  induction fs with
  | nil => rfl
  | cons hd tl ih =>
    obtain ⟨k, ov⟩ := hd
    rw [List.map_cons, List.nodup_cons] at hnd
    have hk : k ∉ (serializeData tl).map Prod.fst :=
      fun h => hnd.1 (keys_serializeData_sub tl k h)
    have hlk : dlookup k (serializeData tl) = none :=
      dlookup_eq_none_of_not_mem _ hk
    rw [List.map_cons, reconstructFields_cons]
    cases ov with
    | none =>
      rw [serializeData_cons_none, hlk, serializeData_cons_none]
      exact ih hnd.2
    | some v =>
      by_cases hv : v.truthy
      · rw [serializeData_cons_truthy k v tl hv]
        have h1 : dlookup k ((k, v) :: serializeData tl) = some v := by
          simp [dlookup]
        rw [h1, reconstructFields_skip (tl.map Prod.fst) k hnd.1 v _]
        rw [serializeData_cons_truthy k v _ hv]
        rw [ih hnd.2]
      · have hv0 : v.truthy = false := by simpa using hv
        rw [serializeData_cons_falsy k v tl hv0, hlk, serializeData_cons_none]
        exact ih hnd.2

theorem notification_fields_ofKwargs (kw : List (String × PyVal)) :
    (Notification.ofKwargs kw).fields = reconstructFields
      ["title", "body", "icon", "sound", "badge", "tag", "color",
       "click_action", "body_loc_key", "body_loc_args", "title_loc_key",
       "title_loc_args"] kw := rfl

theorem notification_map_fst_fields (n : Notification) :
    n.fields.map Prod.fst =
      ["title", "body", "icon", "sound", "badge", "tag", "color",
       "click_action", "body_loc_key", "body_loc_args", "title_loc_key",
       "title_loc_args"] := rfl

/-- Reserializing a `Notification` rebuilt from its own serialized dict
gives back the same dict: `Notification(**n.data).data == n.data`. -/
theorem notification_data_roundtrip (n : Notification) :
    (Notification.ofKwargs n.data).data = n.data := by
  rw [Notification.data, Notification.data, notification_fields_ofKwargs]
  have hr := serialize_reconstruct n.fields
    (by rw [notification_map_fst_fields]; decide)
  rw [notification_map_fst_fields] at hr
  rw [← Notification.data]
  rw [Notification.data]
  exact hr

theorem options_fields_ofKwargs (kw : List (String × PyVal)) :
    (Options.ofKwargs kw).fields = reconstructFields
      ["collapse_key", "priority", "content_available", "delay_while_idle",
       "time_to_live", "delivery_receipt_requested", "dry_run",
       "restricted_package_name"] kw := rfl

theorem options_map_fst_fields (o : Options) :
    o.fields.map Prod.fst =
      ["collapse_key", "priority", "content_available", "delay_while_idle",
       "time_to_live", "delivery_receipt_requested", "dry_run",
       "restricted_package_name"] := rfl

/-- Reserializing an `Options` rebuilt from its own serialized dict gives
back the same dict: `Options(**o.data).data == o.data`. -/
theorem options_data_roundtrip (o : Options) :
    (Options.ofKwargs o.data).data = o.data := by
  rw [Options.data, Options.data, options_fields_ofKwargs]
  have hr := serialize_reconstruct o.fields
    (by rw [options_map_fst_fields]; decide)
  rw [options_map_fst_fields] at hr
  exact hr

theorem classifyStep_other (st : ClassifyState) (r : String) (e : REntry)
    (st1 : ClassifyState) (h : classifyStep st r e = .ok st1) (t : String)
    (htr : t ≠ r) :
    dlookup t st1.success = dlookup t st.success ∧
    (t ∈ st1.success.map Prod.fst ↔ t ∈ st.success.map Prod.fst) ∧
    dlookup t st1.failure = dlookup t st.failure ∧
    (t ∈ st1.failure.map Prod.fst ↔ t ∈ st.failure.map Prod.fst) ∧
    (t ∈ st1.unregistered ↔ t ∈ st.unregistered) ∧
    (t ∈ st1.unavailables ↔ t ∈ st.unavailables) := by
  unfold classifyStep at h
  split at h
  · split at h
    · injection h with h
      subst h
      refine ⟨dlookup_dinsert_ne htr _ _, ?_, rfl, Iff.rfl, Iff.rfl, Iff.rfl⟩
      rw [mem_fst_dinsert]
      simp [htr]
    · injection h with h
      subst h
      refine ⟨dlookup_dinsert_ne htr _ _, ?_, rfl, Iff.rfl, Iff.rfl, Iff.rfl⟩
      rw [mem_fst_dinsert]
      simp [htr]
  · split at h
    · exact Except.noConfusion h
    · split at h
      · injection h with h
        subst h
        refine ⟨rfl, Iff.rfl, rfl, Iff.rfl, Iff.rfl, ?_⟩
        simp [htr]
      · split at h
        · injection h with h
          subst h
          refine ⟨rfl, Iff.rfl, rfl, Iff.rfl, ?_, Iff.rfl⟩
          simp [htr]
        · injection h with h
          subst h
          refine ⟨rfl, Iff.rfl, dlookup_dinsert_ne htr _ _, ?_, Iff.rfl, Iff.rfl⟩
          rw [mem_fst_dinsert]
          simp [htr]

theorem classifyStep_self (st : ClassifyState) (r : String) (e : REntry)
    (st1 : ClassifyState) (h : classifyStep st r e = .ok st1) :
    (∀ mid, e.message_id = some mid → dlookup r st1.success = some mid) ∧
    (∀ err, e.message_id = none → e.error = some err →
      ((err = "Unavailable" ∨ err = "InternalServerError") → r ∈ st1.unavailables) ∧
      (err = "NotRegistered" → r ∈ st1.unregistered) ∧
      (err ≠ "Unavailable" → err ≠ "InternalServerError" → err ≠ "NotRegistered" →
        dlookup r st1.failure = some err)) := by
  constructor
  · intro mid hmid
    cases hri : e.registration_id with
    | some tok =>
      simp only [classifyStep, hmid, hri] at h
      injection h with h
      subst h
      exact dlookup_dinsert_self _ _ _
    | none =>
      simp only [classifyStep, hmid, hri] at h
      injection h with h
      subst h
      exact dlookup_dinsert_self _ _ _
  · intro err hnone herr
    simp only [classifyStep, hnone, herr] at h
    refine ⟨?_, ?_, ?_⟩
    · intro hsp
      have hcond : (decide (err = "Unavailable") || decide (err = "InternalServerError")) = true := by
        rcases hsp with h1 | h1 <;> simp [h1]
      rw [if_pos hcond] at h
      injection h with h
      subst h
      simp
    · intro hnr
      subst hnr
      rw [if_neg (by decide), if_pos rfl] at h
      injection h with h
      subst h
      simp
    · intro h1 h2 h3
      have hc1 : ¬ ((decide (err = "Unavailable") || decide (err = "InternalServerError")) = true) := by
        simp [h1, h2]
      rw [if_neg hc1, if_neg h3] at h
      injection h with h
      subst h
      exact dlookup_dinsert_self _ _ _

theorem classifyStep_wf (st : ClassifyState) (r : String) (e : REntry)
    (st1 : ClassifyState) (h : classifyStep st r e = .ok st1) :
    e.message_id ≠ none ∨ e.error ≠ none := by
  cases hmi : e.message_id with
  | some mid => exact Or.inl (by simp [hmi])
  | none =>
    cases her : e.error with
    | some err => exact Or.inr (by simp [her])
    | none =>
      exfalso
      simp only [classifyStep, hmi, her] at h
      exact Except.noConfusion h

theorem classifyAll_not_mem (ps : List (String × REntry)) (st st' : ClassifyState)
    (t : String) (h : classifyAll st ps = .ok st') (ht : t ∉ ps.map Prod.fst) :
    dlookup t st'.success = dlookup t st.success ∧
    (t ∈ st'.success.map Prod.fst ↔ t ∈ st.success.map Prod.fst) ∧
    dlookup t st'.failure = dlookup t st.failure ∧
    (t ∈ st'.failure.map Prod.fst ↔ t ∈ st.failure.map Prod.fst) ∧
    (t ∈ st'.unregistered ↔ t ∈ st.unregistered) ∧
    (t ∈ st'.unavailables ↔ t ∈ st.unavailables) := by
  induction ps generalizing st with
  | nil =>
    rw [classifyAll] at h
    injection h with h
    subst h
    exact ⟨rfl, Iff.rfl, rfl, Iff.rfl, Iff.rfl, Iff.rfl⟩
  | cons hd rest ih =>
    obtain ⟨r, e⟩ := hd
    rw [List.map_cons, List.mem_cons, not_or] at ht
    obtain ⟨htr, htrest⟩ := ht
    rw [classifyAll] at h
    cases hstep : classifyStep st r e with
    | error pe =>
      rw [hstep] at h
      exact Except.noConfusion h
    | ok st1 =>
      rw [hstep] at h
      obtain ⟨e1, e2, e3, e4, e5, e6⟩ := ih st1 h htrest
      obtain ⟨f1, f2, f3, f4, f5, f6⟩ := classifyStep_other st r e st1 hstep t htr
      exact ⟨e1.trans f1, e2.trans f2, e3.trans f3, e4.trans f4,
             e5.trans f5, e6.trans f6⟩

theorem classifyAll_pair (ps : List (String × REntry)) (st st' : ClassifyState)
    (h : classifyAll st ps = .ok st') (hnd : (ps.map Prod.fst).Nodup)
    (t : String) (e : REntry) (hpe : (t, e) ∈ ps) :
    (∀ mid, e.message_id = some mid → dlookup t st'.success = some mid) ∧
    (∀ err, e.message_id = none → e.error = some err →
      ((err = "Unavailable" ∨ err = "InternalServerError") → t ∈ st'.unavailables) ∧
      (err = "NotRegistered" → t ∈ st'.unregistered) ∧
      (err ≠ "Unavailable" → err ≠ "InternalServerError" → err ≠ "NotRegistered" →
        dlookup t st'.failure = some err)) := by
  induction ps generalizing st with
  | nil => cases hpe
  | cons hd rest ih =>
    obtain ⟨r, e1⟩ := hd
    rw [List.map_cons, List.nodup_cons] at hnd
    rw [classifyAll] at h
    cases hstep : classifyStep st r e1 with
    | error pe =>
      rw [hstep] at h
      exact Except.noConfusion h
    | ok st1 =>
      rw [hstep] at h
      rcases List.mem_cons.1 hpe with hhd | htl
      · injection hhd with hfst hsnd
        subst hfst
        subst hsnd
        have htrest : t ∉ rest.map Prod.fst := hnd.1
        obtain ⟨e1', e2', e3', e4', e5', e6'⟩ :=
          classifyAll_not_mem rest st1 st' t h htrest
        obtain ⟨s1, s2⟩ := classifyStep_self st t e st1 hstep
        constructor
        · intro mid hmid
          rw [e1']
          exact s1 mid hmid
        · intro err hnone herr
          obtain ⟨u1, u2, u3⟩ := s2 err hnone herr
          refine ⟨?_, ?_, ?_⟩
          · intro hsp
            exact e6'.2 (u1 hsp)
          · intro hnr
            exact e5'.2 (u2 hnr)
          · intro h1 h2 h3
            rw [e3']
            exact u3 h1 h2 h3
      · exact ih st1 h hnd.2 htl

theorem classifyAll_wf (ps : List (String × REntry)) (st st' : ClassifyState)
    (h : classifyAll st ps = .ok st') (t : String) (e : REntry)
    (hpe : (t, e) ∈ ps) : e.message_id ≠ none ∨ e.error ≠ none := by
  induction ps generalizing st with
  | nil => cases hpe
  | cons hd rest ih =>
    obtain ⟨r, e1⟩ := hd
    rw [classifyAll] at h
    cases hstep : classifyStep st r e1 with
    | error pe =>
      rw [hstep] at h
      exact Except.noConfusion h
    | ok st1 =>
      rw [hstep] at h
      rcases List.mem_cons.1 hpe with hhd | htl
      · injection hhd with hfst hsnd
        subst hsnd
        exact classifyStep_wf st r e st1 hstep
      · exact ih st1 h htl

theorem exists_pair_cons_iff (P : REntry → Prop) (t r : String) (e1 : REntry)
    (rest : List (String × REntry)) :
    (∃ e, (t, e) ∈ (r, e1) :: rest ∧ P e) ↔
      (t = r ∧ P e1) ∨ ∃ e, (t, e) ∈ rest ∧ P e := by
  constructor
  · rintro ⟨e, he, hp⟩
    rcases List.mem_cons.1 he with h1 | h1
    · injection h1 with ha hb
      subst ha
      subst hb
      exact Or.inl ⟨rfl, hp⟩
    · exact Or.inr ⟨e, h1, hp⟩
  · rintro (⟨ht, hp⟩ | ⟨e, he, hp⟩)
    · subst ht
      exact ⟨e1, List.mem_cons_self _ _, hp⟩
    · exact ⟨e, List.mem_cons_of_mem _ he, hp⟩

theorem classifyStep_mem (st : ClassifyState) (r : String) (e : REntry)
    (st1 : ClassifyState) (h : classifyStep st r e = .ok st1) (t : String) :
    (t ∈ st1.success.map Prod.fst ↔ t ∈ st.success.map Prod.fst ∨
       (t = r ∧ entrySuccess e)) ∧
    (t ∈ st1.failure.map Prod.fst ↔ t ∈ st.failure.map Prod.fst ∨
       (t = r ∧ entryFailure e)) ∧
    (t ∈ st1.unregistered ↔ t ∈ st.unregistered ∨ (t = r ∧ entryUnreg e)) ∧
    (t ∈ st1.unavailables ↔ t ∈ st.unavailables ∨ (t = r ∧ entryUnavail e)) := by
  cases hmi : e.message_id with
  | some mid =>
    have hps : entrySuccess e := by simp [entrySuccess, hmi]
    have hpf : ¬ entryFailure e := by simp [entryFailure, hmi]
    have hpr : ¬ entryUnreg e := by simp [entryUnreg, hmi]
    have hpu : ¬ entryUnavail e := by simp [entryUnavail, hmi]
    have hsub : st1.failure = st.failure ∧ st1.unregistered = st.unregistered ∧
        st1.unavailables = st.unavailables ∧
        st1.success = dinsert r mid st.success := by
      cases hri : e.registration_id with
      | some tok =>
        simp only [classifyStep, hmi, hri] at h
        injection h with h
        subst h
        exact ⟨rfl, rfl, rfl, rfl⟩
      | none =>
        simp only [classifyStep, hmi, hri] at h
        injection h with h
        subst h
        exact ⟨rfl, rfl, rfl, rfl⟩
    obtain ⟨hf, hu, hv, hs⟩ := hsub
    rw [hf, hu, hv, hs, mem_fst_dinsert]
    refine ⟨by tauto, by tauto, by tauto, by tauto⟩
  | none =>
    have hps : ¬ entrySuccess e := by simp [entrySuccess, hmi]
    cases her : e.error with
    | none =>
      simp only [classifyStep, hmi, her] at h
      exact Except.noConfusion h
    | some err =>
      simp only [classifyStep, hmi, her] at h
      by_cases hsp : (decide (err = "Unavailable") || decide (err = "InternalServerError")) = true
      · rw [if_pos hsp] at h
        injection h with h
        subst h
        have hsp1 : err = "Unavailable" ∨ err = "InternalServerError" := by
          rcases Bool.or_eq_true_iff.1 hsp with h1 | h1
          · exact Or.inl (of_decide_eq_true h1)
          · exact Or.inr (of_decide_eq_true h1)
        have hpu : entryUnavail e := by
          refine ⟨hmi, ?_⟩
          rw [her]
          rcases hsp1 with h1 | h1
          · exact Or.inl (by rw [h1])
          · exact Or.inr (by rw [h1])
        have hpf : ¬ entryFailure e := by
          rintro ⟨h0, err1, he1, hn1, hn2, hn3⟩
          rw [her] at he1
          injection he1 with he1
          subst he1
          rcases hsp1 with h1 | h1
          · exact hn1 h1
          · exact hn2 h1
        have hpr : ¬ entryUnreg e := by
          rintro ⟨h0, hc⟩
          rw [her] at hc
          injection hc with hc
          rcases hsp1 with h1 | h1 <;> rw [hc] at h1 <;> simp at h1
        dsimp only
        rw [List.mem_append, List.mem_singleton]
        refine ⟨by tauto, by tauto, by tauto, by tauto⟩
      · rw [if_neg hsp] at h
        have hne : err ≠ "Unavailable" ∧ err ≠ "InternalServerError" := by
          constructor <;> intro h1 <;> subst h1 <;> simp at hsp
        have hpu : ¬ entryUnavail e := by
          rintro ⟨h0, hc | hc⟩ <;> rw [her] at hc <;> injection hc with hc
          · exact hne.1 hc
          · exact hne.2 hc
        by_cases hnr : err = "NotRegistered"
        · subst hnr
          rw [if_pos rfl] at h
          injection h with h
          subst h
          have hpr : entryUnreg e := ⟨hmi, her⟩
          have hpf : ¬ entryFailure e := by
            rintro ⟨h0, err1, he1, hn1, hn2, hn3⟩
            rw [her] at he1
            injection he1 with he1
            exact hn3 he1.symm
          dsimp only
          rw [List.mem_append, List.mem_singleton]
          refine ⟨by tauto, by tauto, by tauto, by tauto⟩
        · rw [if_neg hnr] at h
          injection h with h
          subst h
          have hpf : entryFailure e := ⟨hmi, err, her, hne.1, hne.2, hnr⟩
          have hpr : ¬ entryUnreg e := by
            rintro ⟨h0, hc⟩
            rw [her] at hc
            injection hc with hc
            exact hnr hc
          dsimp only
          rw [mem_fst_dinsert]
          refine ⟨by tauto, by tauto, by tauto, by tauto⟩

theorem classifyAll_mem_iff (ps : List (String × REntry)) (st st' : ClassifyState)
    (h : classifyAll st ps = .ok st') (t : String) :
    (t ∈ st'.success.map Prod.fst ↔ t ∈ st.success.map Prod.fst ∨
       ∃ e, (t, e) ∈ ps ∧ entrySuccess e) ∧
    (t ∈ st'.failure.map Prod.fst ↔ t ∈ st.failure.map Prod.fst ∨
       ∃ e, (t, e) ∈ ps ∧ entryFailure e) ∧
    (t ∈ st'.unregistered ↔ t ∈ st.unregistered ∨
       ∃ e, (t, e) ∈ ps ∧ entryUnreg e) ∧
    (t ∈ st'.unavailables ↔ t ∈ st.unavailables ∨
       ∃ e, (t, e) ∈ ps ∧ entryUnavail e) := by
  induction ps generalizing st with
  | nil =>
    rw [classifyAll] at h
    injection h with h
    subst h
    simp
  | cons hd rest ih =>
    obtain ⟨r, e1⟩ := hd
    rw [classifyAll] at h
    cases hstep : classifyStep st r e1 with
    | error pe =>
      rw [hstep] at h
      exact Except.noConfusion h
    | ok st1 =>
      rw [hstep] at h
      obtain ⟨i1, i2, i3, i4⟩ := ih st1 h
      obtain ⟨m1, m2, m3, m4⟩ := classifyStep_mem st r e1 st1 hstep t
      refine ⟨?_, ?_, ?_, ?_⟩
      · exact (i1.trans ((or_congr_left m1).trans or_assoc)).trans
          (or_congr_right (exists_pair_cons_iff entrySuccess t r e1 rest).symm)
      · exact (i2.trans ((or_congr_left m2).trans or_assoc)).trans
          (or_congr_right (exists_pair_cons_iff entryFailure t r e1 rest).symm)
      · exact (i3.trans ((or_congr_left m3).trans or_assoc)).trans
          (or_congr_right (exists_pair_cons_iff entryUnreg t r e1 rest).symm)
      · exact (i4.trans ((or_congr_left m4).trans or_assoc)).trans
          (or_congr_right (exists_pair_cons_iff entryUnavail t r e1 rest).symm)

theorem parse_response_5xx (m : Message) (resp : HTTPResponse)
    (h5 : 500 ≤ resp.status_code ∧ resp.status_code ≤ 599) :
    Sender.parse_response m resp = .ok
      { raw_result := none
      , message := some m
      , canonical_ids := none
      , multicast_id := none
      , success := []
      , failure := []
      , unregistered := []
      , unavailables := m._registration_ids
      , backoff := (dlookup "Retry-After" resp.headers).map PyVal.str } := by
  unfold Sender.parse_response
  rw [if_neg (by omega), if_neg (by omega), if_pos h5]

theorem parse_response_400 (m : Message) (resp : HTTPResponse)
    (h : resp.status_code = 400) :
    Sender.parse_response m resp = .error (.gcm resp.content) := by
  unfold Sender.parse_response
  rw [if_pos h]

theorem parse_response_401 (m : Message) (resp : HTTPResponse)
    (h : resp.status_code = 401) :
    Sender.parse_response m resp = .error (.gcm "Unauthorized API_KEY") := by
  unfold Sender.parse_response
  rw [if_neg (by omega), if_pos h]

theorem parse_response_other (m : Message) (resp : HTTPResponse)
    (h400 : resp.status_code ≠ 400) (h401 : resp.status_code ≠ 401)
    (h200 : resp.status_code ≠ 200)
    (h5 : ¬ (500 ≤ resp.status_code ∧ resp.status_code ≤ 599)) :
    Sender.parse_response m resp = .error (.unboundLocal "data") := by
  unfold Sender.parse_response
  rw [if_neg h400, if_neg h401, if_neg h5, if_neg h200]

theorem parse_response_200_elim (m : Message) (resp : HTTPResponse)
    (body : RespBody) (results : List REntry) (r_ids : List String)
    (res : Result)
    (h200 : resp.status_code = 200) (hjson : resp.json = some body)
    (hres : body.results = some results)
    (hrids : m._registration_ids = some r_ids)
    (hok : Sender.parse_response m resp = .ok res) :
    ∃ st, classifyAll {} (r_ids.zip results) = .ok st ∧
      res.success = st.success ∧ res.failure = st.failure ∧
      res.unregistered = st.unregistered ∧
      res.unavailables = some st.unavailables := by
  unfold Sender.parse_response at hok
  rw [h200] at hok
  rw [if_neg (by decide), if_neg (by decide), if_neg (by decide),
      if_pos rfl] at hok
  rw [hjson] at hok
  simp only at hok
  rw [hres] at hok
  simp only at hok
  rw [hrids] at hok
  simp only at hok
  cases hcl : classifyAll {} (r_ids.zip results) with
  | error pe =>
    rw [hcl] at hok
    simp only at hok
    exact Except.noConfusion hok
  | ok st =>
    rw [hcl] at hok
    simp only at hok
    cases hcids : body.canonical_ids with
    | none =>
      rw [hcids] at hok
      simp only at hok
      exact Except.noConfusion hok
    | some cids =>
      rw [hcids] at hok
      simp only at hok
      cases hmid : body.multicast_id with
      | none =>
        rw [hmid] at hok
        simp only at hok
        exact Except.noConfusion hok
      | some mid =>
        rw [hmid] at hok
        simp only at hok
        injection hok with hok
        subst hok
        exact ⟨st, rfl, rfl, rfl, rfl, rfl⟩

theorem parse_response_ok_status (m : Message) (resp : HTTPResponse)
    (res : Result) (hok : Sender.parse_response m resp = .ok res) :
    (500 ≤ resp.status_code ∧ resp.status_code ≤ 599) ∨
      resp.status_code = 200 := by
  by_cases h5 : 500 ≤ resp.status_code ∧ resp.status_code ≤ 599
  · exact Or.inl h5
  · by_cases h200 : resp.status_code = 200
    · exact Or.inr h200
    · exfalso
      by_cases h400 : resp.status_code = 400
      · rw [parse_response_400 m resp h400] at hok
        exact Except.noConfusion hok
      · by_cases h401 : resp.status_code = 401
        · rw [parse_response_401 m resp h401] at hok
          exact Except.noConfusion hok
        · rw [parse_response_other m resp h400 h401 h200 h5] at hok
          exact Except.noConfusion hok

/-- Claim C8: constructing a Message with both target kinds set (truthy)
or with neither set fails with a ValueError before anything else, and
construction with exactly one of the two succeeds. -/
theorem C8_target_xor_validation (to_ : Option String)
    (registration_ids : Option (List String))
    (data notification options : Option (List (String × PyVal))) :
    (truthyOptStr to_ = false ∧ truthyOptList registration_ids = false →
      Message.init to_ registration_ids data notification options =
        .error (.valueError "You must provide \"registration_ids\" or \"to\"")) ∧
    (truthyOptStr to_ = true ∧ truthyOptList registration_ids = true →
      Message.init to_ registration_ids data notification options =
        .error (.valueError "You must provide \"registration_ids\" or \"to\" no both")) ∧
    (truthyOptStr to_ ≠ truthyOptList registration_ids →
      ∃ m, Message.init to_ registration_ids data notification options = .ok m) := by
  cases hto : truthyOptStr to_ <;> cases hreg : truthyOptList registration_ids <;>
    simp [Message.init, hto, hreg]

/-- Witness for C8 at concrete inputs: both targets supplied is rejected
with the conflicting-target ValueError. -/
theorem C8_target_xor_validation_witness :
    Message.init (some "T") (some ["A"]) none none none =
      .error (.valueError "You must provide \"registration_ids\" or \"to\" no both") :=
  (C8_target_xor_validation (some "T") (some ["A"]) none none none).2.1
    ⟨rfl, rfl⟩

/-- Claim C2 counterexample: for a 500 response with header
`Retry-After: 5`, the code stores the raw header string, so
`Result.backoff` is the string "5" and not the integer 5 the claim
asserts. -/
theorem C2_counterexample :
    (Sender.parse_response c2msg c2resp).map Result.backoff =
      .ok (some (PyVal.str "5")) ∧
    (some (PyVal.str "5") : Option PyVal) ≠ some (PyVal.int 5) := by
  exact ⟨rfl, by decide⟩

/-- Claim C2 (amended): for every 5xx response over a
registration-ids-addressed message, no exception is raised and the
Result has empty success/failure/unregistered, every original recipient
in unavailables, and backoff equal to the raw Retry-After header string
when the header is present (unset otherwise). -/
theorem C2_5xx_full_retry (m : Message) (resp : HTTPResponse)
    (r_ids : List String) (hrids : m._registration_ids = some r_ids)
    (h5 : 500 ≤ resp.status_code ∧ resp.status_code ≤ 599) :
    ∃ res, Sender.parse_response m resp = .ok res ∧
      res.success = [] ∧ res.failure = [] ∧ res.unregistered = [] ∧
      res.unavailables = some r_ids ∧
      (∀ t ∈ r_ids, t ∈ res.unavailables.getD []) ∧
      res.backoff = (dlookup "Retry-After" resp.headers).map PyVal.str := by
  refine ⟨_, parse_response_5xx m resp h5, rfl, rfl, rfl, ?_, ?_, rfl⟩
  · exact hrids
  · intro t ht
    dsimp only
    rw [hrids]
    simpa using ht

/-- Witness for C2 (amended) at the concrete 500 response: both
recipients land in unavailables. -/
theorem C2_5xx_full_retry_witness :
    (Sender.parse_response c2msg c2resp).map Result.unavailables =
      .ok (some ["ABC", "HJK"]) := by
  obtain ⟨res, heq, h1, h2, h3, h4, h5, h6⟩ :=
    C2_5xx_full_retry c2msg c2resp ["ABC", "HJK"] rfl (by decide)
  rw [heq]
  simp only [Except.map]
  rw [h4]

/-- Claim C5 counterexample: a 302 response makes the status dispatch
fall through without assigning the local `data`, so the raised exception
is an UnboundLocalError, not a GCMException carrying status and body. -/
theorem C5_counterexample :
    Sender.parse_response c5msg c5resp302 = .error (.unboundLocal "data") ∧
    PyError.isGCM (.unboundLocal "data") = false :=
  ⟨rfl, rfl⟩

/-- Claim C5 (amended): for every response whose status is neither 200
nor 5xx, response interpretation raises and no Result is produced: 400
raises GCMException carrying the raw body, 401 raises
GCMException("Unauthorized API_KEY"), and any other status raises an
UnboundLocalError that carries neither status nor body. -/
theorem C5_non200_non5xx_raises (m : Message) (resp : HTTPResponse)
    (h200 : resp.status_code ≠ 200)
    (h5 : ¬ (500 ≤ resp.status_code ∧ resp.status_code ≤ 599)) :
    (resp.status_code = 400 →
      Sender.parse_response m resp = .error (.gcm resp.content)) ∧
    (resp.status_code = 401 →
      Sender.parse_response m resp = .error (.gcm "Unauthorized API_KEY")) ∧
    (resp.status_code ≠ 400 → resp.status_code ≠ 401 →
      Sender.parse_response m resp = .error (.unboundLocal "data")) ∧
    (∀ res, Sender.parse_response m resp ≠ .ok res) := by
  refine ⟨fun h400 => parse_response_400 m resp h400,
          fun h401 => parse_response_401 m resp h401,
          fun h400 h401 => parse_response_other m resp h400 h401 h200 h5,
          ?_⟩
  intro res hok
  rcases parse_response_ok_status m resp res hok with hs | hs
  · exact h5 hs
  · exact h200 hs

/-- Witness for C5 (amended) at the concrete 403 response. -/
theorem C5_non200_non5xx_raises_witness :
    Sender.parse_response c5msg c5resp403 = .error (.unboundLocal "data") :=
  (C5_non200_non5xx_raises c5msg c5resp403 (by decide) (by decide)).2.2.1
    (by decide) (by decide)

/-- Claim C4 (code bug): get_retry_message returns None when
unavailables is empty even with failure and unregistered non-empty, but
on a non-empty unavailables it evaluates the undefined global name
`message` (gcm.py line 189, which should read `self.message`) and raises
NameError instead of returning the retry Message the claim (and the
docstring and the tests) describe. -/
theorem C4_get_retry_message_name_error :
    Result.get_retry_message c4resEmpty = .ok none ∧
    Result.get_retry_message c4resNonempty = .error (.nameError "message") :=
  ⟨rfl, rfl⟩

/-- Claim C3 (code bug): the 200 loop builds the old-token to new-token
map in a local dict, but the Result is populated with the body top-level
canonical_ids count instead (gcm.py line 379), discarding the map: for
one recipient "A" whose entry carries replacement token "NEW" and a body
count of 1, Result.canonical_ids is the count 1, not a mapping, although
the discarded loop state does hold [("A", "NEW")]. -/
theorem C3_canonical_map_discarded :
    (Sender.parse_response c3msg c3resp).map Result.canonical_ids =
      .ok (some (PyVal.int 1)) ∧
    (classifyAll {} (["A"].zip [c3entry])).map ClassifyState.canonical_ids =
      .ok [("A", PyVal.str "NEW")] ∧
    (some (PyVal.int 1) : Option PyVal) ≠ some (PyVal.str "NEW") := by
  exact ⟨rfl, rfl, by decide⟩

/-- Claim C10 counterexample: a to-addressed message has
`_registration_ids = None`, so interpreting a 200 response reaches
`zip(None, results)` and raises TypeError instead of producing a Result
with empty classification maps. -/
theorem C10_counterexample :
    Sender.parse_response c10msg c10resp =
      .error (.typeError "zip argument 1 must support iteration") := rfl

theorem parse_response_200_nojson (m : Message) (resp : HTTPResponse)
    (h200 : resp.status_code = 200) (hj : resp.json = none) :
    Sender.parse_response m resp =
      .error (.valueError "No JSON object could be decoded") := by
  unfold Sender.parse_response
  rw [h200]
  rw [if_neg (by decide), if_neg (by decide), if_neg (by decide), if_pos rfl]
  rw [hj]

theorem parse_response_200_noresults (m : Message) (resp : HTTPResponse)
    (body : RespBody) (h200 : resp.status_code = 200)
    (hj : resp.json = some body) (hr : body.results = none) :
    Sender.parse_response m resp = .error (.keyError "results") := by
  unfold Sender.parse_response
  rw [h200]
  rw [if_neg (by decide), if_neg (by decide), if_neg (by decide), if_pos rfl]
  rw [hj]
  simp only
  rw [hr]

theorem parse_response_200_norids (m : Message) (resp : HTTPResponse)
    (body : RespBody) (results : List REntry) (h200 : resp.status_code = 200)
    (hj : resp.json = some body) (hr : body.results = some results)
    (hrids : m._registration_ids = none) :
    Sender.parse_response m resp =
      .error (.typeError "zip argument 1 must support iteration") := by
  unfold Sender.parse_response
  rw [h200]
  rw [if_neg (by decide), if_neg (by decide), if_neg (by decide), if_pos rfl]
  rw [hj]
  simp only
  rw [hr]
  simp only
  rw [hrids]

/-- Claim C10 (amended): interpreting a 200 response for a to-addressed
Message (one constructed without registration ids) never populates any
classification field because it never completes: it raises a ValueError
when the body is not JSON, a KeyError when the body lacks a results key,
and otherwise a TypeError from zipping the None recipient list; no
Result is ever produced. -/
theorem C10_to_addressed_200_raises (m : Message) (resp : HTTPResponse)
    (hrids : m._registration_ids = none) (h200 : resp.status_code = 200) :
    (Sender.parse_response m resp =
        .error (.valueError "No JSON object could be decoded") ∨
     Sender.parse_response m resp = .error (.keyError "results") ∨
     Sender.parse_response m resp =
        .error (.typeError "zip argument 1 must support iteration")) ∧
    (∀ res, Sender.parse_response m resp ≠ .ok res) := by
  have hmain : Sender.parse_response m resp =
      .error (.valueError "No JSON object could be decoded") ∨
      Sender.parse_response m resp = .error (.keyError "results") ∨
      Sender.parse_response m resp =
        .error (.typeError "zip argument 1 must support iteration") := by
    cases hj : resp.json with
    | none => exact Or.inl (parse_response_200_nojson m resp h200 hj)
    | some body =>
      cases hr : body.results with
      | none =>
        exact Or.inr (Or.inl (parse_response_200_noresults m resp body h200 hj hr))
      | some results =>
        exact Or.inr (Or.inr
          (parse_response_200_norids m resp body results h200 hj hr hrids))
  refine ⟨hmain, ?_⟩
  intro res hok
  rcases hmain with h | h | h <;> rw [h] at hok <;> exact Except.noConfusion hok

/-- Witness for C10 (amended) at the concrete to-addressed message and
200 response with a one-entry results array. -/
theorem C10_to_addressed_200_raises_witness :
    Sender.parse_response c10msg c10resp ≠
      .ok { canonical_ids := none, multicast_id := none, success := []
          , failure := [], unregistered := [], unavailables := none
          , backoff := none, message := some c10msg, raw_result := none } :=
  (C10_to_addressed_200_raises c10msg c10resp rfl rfl).2 _

/-- Claim C1: for a 200 response over a registration-ids-addressed
message, with the results array aligned one entry per (distinct)
recipient, each zipped (recipient, entry) pair is classified as the
entry dictates: a message id maps the recipient to that id in success;
error Unavailable or InternalServerError puts it into unavailables;
NotRegistered puts it into unregistered; any other error code maps it to
that code in failure. -/
theorem C1_200_classification (m : Message) (resp : HTTPResponse)
    (body : RespBody) (results : List REntry) (r_ids : List String)
    (res : Result) (h200 : resp.status_code = 200)
    (hjson : resp.json = some body) (hres : body.results = some results)
    (hrids : m._registration_ids = some r_ids) (hnd : r_ids.Nodup)
    (hlen : results.length = r_ids.length)
    (hok : Sender.parse_response m resp = .ok res)
    (t : String) (e : REntry) (hpair : (t, e) ∈ r_ids.zip results) :
    (∀ mid, e.message_id = some mid → dlookup t res.success = some mid) ∧
    (∀ err, e.message_id = none → e.error = some err →
      (((err = "Unavailable" ∨ err = "InternalServerError") →
          t ∈ res.unavailables.getD []) ∧
       (err = "NotRegistered" → t ∈ res.unregistered) ∧
       (err ≠ "Unavailable" → err ≠ "InternalServerError" →
        err ≠ "NotRegistered" → dlookup t res.failure = some err))) := by
  obtain ⟨st, hcl, hs, hf, hr, hu⟩ :=
    parse_response_200_elim m resp body results r_ids res h200 hjson hres
      hrids hok
  have hznd : ((r_ids.zip results).map Prod.fst).Nodup := by
    rw [List.map_fst_zip r_ids results (le_of_eq hlen.symm)]
    exact hnd
  obtain ⟨p1, p2⟩ := classifyAll_pair (r_ids.zip results) {} st hcl hznd t e hpair
  constructor
  · intro mid hmid
    rw [hs]
    exact p1 mid hmid
  · intro err h1 h2
    obtain ⟨u1, u2, u3⟩ := p2 err h1 h2
    refine ⟨?_, ?_, ?_⟩
    · intro hsp
      rw [hu]
      simpa using u1 hsp
    · intro hnr
      rw [hr]
      exact u2 hnr
    · intro a b c
      rw [hf]
      exact u3 a b c

/-- Witness for C1 at the four-recipient example: the first recipient is
mapped to its message id in success. -/
theorem C1_200_classification_witness :
    dlookup "oldToken123" c1res.success = some (PyVal.int 100) :=
  (C1_200_classification c1msg c1resp c1body c1results
      ["oldToken123", "ABC123", "CBA123", "123ABC"] c1res rfl rfl rfl rfl
      (by decide) (by decide) rfl "oldToken123" c1e0 (by decide)).1
    (PyVal.int 100) rfl

theorem entry_exactly_one (e : REntry)
    (hwf : e.message_id ≠ none ∨ e.error ≠ none) :
    ExactlyOneOfFour (entrySuccess e) (entryFailure e) (entryUnreg e)
      (entryUnavail e) := by
  cases hmi : e.message_id with
  | some mid =>
    exact Or.inl ⟨by simp [entrySuccess, hmi], by simp [entryFailure, hmi],
      by simp [entryUnreg, hmi], by simp [entryUnavail, hmi]⟩
  | none =>
    have hps : ¬ entrySuccess e := by simp [entrySuccess, hmi]
    cases her : e.error with
    | none =>
      rcases hwf with h | h
      · exact absurd hmi h
      · exact absurd her h
    | some err =>
      by_cases h1 : err = "Unavailable" ∨ err = "InternalServerError"
      · refine Or.inr (Or.inr (Or.inr ⟨hps, ?_, ?_, ?_⟩))
        · rintro ⟨h0, err1, he1, hn1, hn2, hn3⟩
          rw [her] at he1
          injection he1 with he1
          subst he1
          rcases h1 with h2 | h2
          · exact hn1 h2
          · exact hn2 h2
        · rintro ⟨h0, hc⟩
          rw [her] at hc
          injection hc with hc
          rcases h1 with h2 | h2 <;> rw [hc] at h2 <;> simp at h2
        · refine ⟨hmi, ?_⟩
          rw [her]
          rcases h1 with h2 | h2
          · exact Or.inl (by rw [h2])
          · exact Or.inr (by rw [h2])
      · rw [not_or] at h1
        by_cases h2 : err = "NotRegistered"
        · subst h2
          refine Or.inr (Or.inr (Or.inl ⟨hps, ?_, ⟨hmi, her⟩, ?_⟩))
          · rintro ⟨h0, err1, he1, hn1, hn2, hn3⟩
            rw [her] at he1
            injection he1 with he1
            exact hn3 he1.symm
          · rintro ⟨h0, hc | hc⟩ <;> rw [her] at hc <;> injection hc with hc <;>
              simp at hc
        · refine Or.inr (Or.inl ⟨hps, ⟨hmi, err, her, h1.1, h1.2, h2⟩, ?_, ?_⟩)
          · rintro ⟨h0, hc⟩
            rw [her] at hc
            injection hc with hc
            exact h2 hc
          · rintro ⟨h0, hc | hc⟩ <;> rw [her] at hc <;> injection hc with hc
            · exact h1.1 hc
            · exact h1.2 hc

theorem classifyAll_mem_iff_empty (ps : List (String × REntry))
    (st' : ClassifyState) (h : classifyAll {} ps = .ok st') (t : String) :
    (t ∈ st'.success.map Prod.fst ↔ ∃ e, (t, e) ∈ ps ∧ entrySuccess e) ∧
    (t ∈ st'.failure.map Prod.fst ↔ ∃ e, (t, e) ∈ ps ∧ entryFailure e) ∧
    (t ∈ st'.unregistered ↔ ∃ e, (t, e) ∈ ps ∧ entryUnreg e) ∧
    (t ∈ st'.unavailables ↔ ∃ e, (t, e) ∈ ps ∧ entryUnavail e) := by
  obtain ⟨i1, i2, i3, i4⟩ := classifyAll_mem_iff ps {} st' h t
  refine ⟨?_, ?_, ?_, ?_⟩
  · rw [i1]
    simp
  · rw [i2]
    simp
  · rw [i3]
    simp
  · rw [i4]
    simp

/-- Claim C6 counterexample: with the duplicated token list ["A", "A"]
and entries [ok, Unavailable], token A appears in success and in
unavailables at once, so the four classifications do not partition the
recipients. -/
theorem C6_counterexample :
    Sender.parse_response c6msg c6resp = .ok c6res ∧
    "A" ∈ c6res.success.map Prod.fst ∧
    "A" ∈ c6res.unavailables.getD [] ∧
    ¬ ExactlyOneOfFour ("A" ∈ c6res.success.map Prod.fst)
        ("A" ∈ c6res.failure.map Prod.fst) ("A" ∈ c6res.unregistered)
        ("A" ∈ c6res.unavailables.getD []) := by
  refine ⟨rfl, by decide, by decide, ?_⟩
  unfold ExactlyOneOfFour
  decide

/-- Claim C6 (amended): for every Result produced from a
registration-ids-addressed send whose recipient tokens are pairwise
distinct (and, on 200, with the results array aligned one entry per
recipient), the four classifications partition the recipients: every
addressed token appears in exactly one of success, failure, unregistered,
unavailables. -/
theorem C6_partition (m : Message) (resp : HTTPResponse) (res : Result)
    (r_ids : List String) (hrids : m._registration_ids = some r_ids)
    (hnd : r_ids.Nodup)
    (halign : ∀ body results, resp.json = some body →
      body.results = some results → results.length = r_ids.length)
    (hok : Sender.parse_response m resp = .ok res)
    (t : String) (ht : t ∈ r_ids) :
    ExactlyOneOfFour (t ∈ res.success.map Prod.fst)
      (t ∈ res.failure.map Prod.fst) (t ∈ res.unregistered)
      (t ∈ res.unavailables.getD []) := by
  rcases parse_response_ok_status m resp res hok with h5 | h200
  · rw [parse_response_5xx m resp h5] at hok
    injection hok with hok
    subst hok
    refine Or.inr (Or.inr (Or.inr ⟨by simp, by simp, by simp, ?_⟩))
    dsimp only
    rw [hrids]
    simpa using ht
  · cases hj : resp.json with
    | none =>
      rw [parse_response_200_nojson m resp h200 hj] at hok
      exact Except.noConfusion hok
    | some body =>
      cases hr : body.results with
      | none =>
        rw [parse_response_200_noresults m resp body h200 hj hr] at hok
        exact Except.noConfusion hok
      | some results =>
        have hlen := halign body results hj hr
        obtain ⟨st, hcl, hs, hf, hrg, hu⟩ :=
          parse_response_200_elim m resp body results r_ids res h200 hj hr
            hrids hok
        have hzf : (r_ids.zip results).map Prod.fst = r_ids :=
          List.map_fst_zip r_ids results (le_of_eq hlen.symm)
        have hznd : ((r_ids.zip results).map Prod.fst).Nodup := by
          rw [hzf]
          exact hnd
        have hex : ∃ e, (t, e) ∈ r_ids.zip results := by
          have hmem : t ∈ (r_ids.zip results).map Prod.fst := by
            rw [hzf]
            exact ht
          rw [List.mem_map] at hmem
          obtain ⟨⟨a, e⟩, hmem1, hfst⟩ := hmem
          exact ⟨e, by rwa [show a = t from hfst] at hmem1⟩
        obtain ⟨e, hpair⟩ := hex
        have hwf := classifyAll_wf (r_ids.zip results) {} st hcl t e hpair
        have huniq : ∀ P : REntry → Prop,
            (∃ e1, (t, e1) ∈ r_ids.zip results ∧ P e1) ↔ P e := by
          intro P
          constructor
          · rintro ⟨e1, h1, hp⟩
            have he1 : e1 = e := nodup_fst_pair_unique _ hznd h1 hpair
            rwa [he1] at hp
          · intro hp
            exact ⟨e, hpair, hp⟩
        obtain ⟨j1, j2, j3, j4⟩ :=
          classifyAll_mem_iff_empty (r_ids.zip results) st hcl t
        have k1 : t ∈ res.success.map Prod.fst ↔ entrySuccess e := by
          rw [hs, j1]
          exact huniq entrySuccess
        have k2 : t ∈ res.failure.map Prod.fst ↔ entryFailure e := by
          rw [hf, j2]
          exact huniq entryFailure
        have k3 : t ∈ res.unregistered ↔ entryUnreg e := by
          rw [hrg, j3]
          exact huniq entryUnreg
        have k4 : t ∈ res.unavailables.getD [] ↔ entryUnavail e := by
          rw [hu, Option.getD_some, j4]
          exact huniq entryUnavail
        rw [k1, k2, k3, k4]
        exact entry_exactly_one e hwf

/-- Witness for C6 (amended) at a four-distinct-recipient example:
recipient w2 (entry Unavailable) lands in exactly one classification. -/
theorem C6_partition_witness :
    ExactlyOneOfFour ("w2" ∈ c6wres.success.map Prod.fst)
      ("w2" ∈ c6wres.failure.map Prod.fst) ("w2" ∈ c6wres.unregistered)
      ("w2" ∈ c6wres.unavailables.getD []) :=
  C6_partition c6wmsg c6wresp c6wres ["w1", "w2", "w3", "w4"] rfl
    (by decide)
    (fun body results h1 h2 => by
      rw [show c6wresp.json = some c6wbody from rfl] at h1
      injection h1 with h1
      subst h1
      rw [show c6wbody.results = some c6wresults from rfl] at h2
      injection h2 with h2
      subst h2
      rfl)
    rfl "w2" (by decide)

/-- Claim C7: for every Message constructed with registration ids,
rebuilding a retry message over the full original recipient list yields
a Message whose serialized body equals the original body. -/
theorem C7_retry_roundtrip (to_ : Option String) (r_ids : List String)
    (data notification options : Option (List (String × PyVal)))
    (m retry : Message)
    (hm : Message.init to_ (some r_ids) data notification options = .ok m)
    (hb : Message.build_retry_message m r_ids = .ok retry) :
    retry.body = m.body := by
  unfold Message.init at hm
  by_cases hc1 : (!(truthyOptStr to_ || truthyOptList (some r_ids))) = true
  · rw [if_pos hc1] at hm
    exact Except.noConfusion hm
  · rw [if_neg hc1] at hm
    by_cases hc2 : (truthyOptStr to_ && truthyOptList (some r_ids)) = true
    · rw [if_pos hc2] at hm
      exact Except.noConfusion hm
    · rw [if_neg hc2] at hm
      injection hm with hm
      subst hm
      unfold Message.build_retry_message at hb
      unfold Message.init at hb
      dsimp only at hb
      by_cases hc3 : truthyOptList (some r_ids) = true
      · have hcc1 : (!(truthyOptStr none || truthyOptList (some r_ids))) = false := by
          simp [truthyOptStr, hc3]
        have hcc2 : (truthyOptStr none && truthyOptList (some r_ids)) = false := by
          simp [truthyOptStr]
        rw [if_neg (by rw [hcc1]; exact Bool.false_ne_true),
            if_neg (by rw [hcc2]; exact Bool.false_ne_true)] at hb
        injection hb with hb
        subst hb
        have hts : truthyOptStr to_ = false := by
          cases hto : truthyOptStr to_
          · rfl
          · exfalso
            apply hc2
            rw [hto, hc3]
            rfl
        unfold Message.body
        dsimp only
        cases to_ with
        | none =>
          rcases notification with _ | nkw <;> rcases options with _ | okw <;>
            simp [notification_data_roundtrip, options_data_roundtrip]
        | some s =>
          have hse : s.isEmpty = true := by
            unfold truthyOptStr at hts
            simpa using hts
          rcases notification with _ | nkw <;> rcases options with _ | okw <;>
            simp [hse, notification_data_roundtrip, options_data_roundtrip]
      · exfalso
        have htl : truthyOptList (some r_ids) = false := by
          cases h : truthyOptList (some r_ids)
          · rfl
          · exact absurd h hc3
        have hcc : (!(truthyOptStr none || truthyOptList (some r_ids))) = true := by
          simp [truthyOptStr, htl]
        rw [if_pos hcc] at hb
        exact Except.noConfusion hb

/-- Witness for C7 at a concrete message with a falsy notification field
and an options field: the rebuilt retry message serializes to the same
body. -/
theorem C7_retry_roundtrip_witness : c7retry.body = c7m.body :=
  C7_retry_roundtrip none ["A", "B"] none (some c7kwN) (some c7kwO)
    c7m c7retry rfl rfl

theorem map_fst_map_bval (l : List (String × PyVal)) :
    (l.map (fun kv => (kv.1, BVal.v kv.2))).map Prod.fst = l.map Prod.fst := by
  rw [List.map_map]
  rfl

theorem mem_map_bval (l : List (String × PyVal)) (k : String) (v : PyVal) :
    (k, BVal.v v) ∈ l.map (fun kv => (kv.1, BVal.v kv.2)) ↔ (k, v) ∈ l := by
  rw [List.mem_map]
  constructor
  · rintro ⟨⟨a, b⟩, hmem, heq⟩
    injection heq with h1 h2
    injection h2 with h2
    subst h1
    subst h2
    exact hmem
  · intro hmem
    exact ⟨(k, v), hmem, rfl⟩

theorem mem_body_opt (m : Message) (o : Options) (hopt : m._opt = some o)
    (k : String) (hk1 : k ≠ "to") (hk2 : k ≠ "registration_ids")
    (hk3 : k ≠ "notification") (hk4 : k ≠ "data") :
    (k ∈ m.body.map Prod.fst ↔ k ∈ o.data.map Prod.fst) ∧
    (∀ v : PyVal, ((k, BVal.v v) ∈ m.body ↔ (k, v) ∈ o.data)) := by
  obtain ⟨mto, mrids, mdata, mnotif, mopt⟩ := m
  have hopt1 : mopt = some o := hopt
  subst hopt1
  unfold Message.body
  dsimp only
  constructor
  · rcases mto with _ | s <;> rcases mrids with _ | l <;>
      rcases mdata with _ | d <;> rcases mnotif with _ | n <;>
      simp [List.mem_append, map_fst_map_bval, hk1, hk2, hk3, hk4]
  · intro v
    rcases mto with _ | s <;> rcases mrids with _ | l <;>
      rcases mdata with _ | d <;> rcases mnotif with _ | n <;>
      simp [List.mem_append, mem_map_bval, hk1, hk2, hk3, hk4]

/-- Claim C9 counterexample: an Options supplied with priority 0 and
dry_run False drops both fields from the serialized body (the mixin
filters by truthiness), while the truthy collapse_key appears at top
level; so set-but-falsy values do not survive as the claim asserts. -/
theorem C9_counterexample :
    Message.init (some "T") none none none (some c9kw) = .ok c9msg ∧
    "priority" ∉ c9msg.body.map Prod.fst ∧
    "dry_run" ∉ c9msg.body.map Prod.fst ∧
    ("collapse_key", BVal.v (.str "ck")) ∈ c9msg.body := by
  refine ⟨rfl, by decide, by decide, by decide⟩

/-- Claim C9 (amended): for every Message with an Options supplied, each
Options field set to a truthy value appears merged at the top level of
body() (never nested under an options key), and each field left unset,
or set to a falsy value such as priority 0 or dry_run False, is omitted
from the payload. -/
theorem C9_options_flattening (m : Message) (o : Options)
    (hopt : m._opt = some o) (k : String) (ov : Option PyVal)
    (hk : (k, ov) ∈ o.fields) :
    ("options" ∉ m.body.map Prod.fst) ∧
    (∀ v, ov = some v → v.truthy = true → (k, BVal.v v) ∈ m.body) ∧
    (ov = none → k ∉ m.body.map Prod.fst) ∧
    (∀ v, ov = some v → v.truthy = false → k ∉ m.body.map Prod.fst) := by
  have hkmem : k ∈ o.fields.map Prod.fst := by
    have h0 := List.mem_map_of_mem Prod.fst hk
    simpa using h0
  rw [options_map_fst_fields] at hkmem
  have hkne : k ≠ "to" ∧ k ≠ "registration_ids" ∧ k ≠ "notification" ∧
      k ≠ "data" := by
    simp only [List.mem_cons, List.not_mem_nil, or_false] at hkmem
    rcases hkmem with h | h | h | h | h | h | h | h <;> subst h <;>
      exact ⟨by decide, by decide, by decide, by decide⟩
  obtain ⟨hn1, hn2, hn3, hn4⟩ := hkne
  obtain ⟨hik, hiv⟩ := mem_body_opt m o hopt k hn1 hn2 hn3 hn4
  obtain ⟨hoik, _⟩ := mem_body_opt m o hopt "options" (by decide) (by decide)
    (by decide) (by decide)
  have hndf : (o.fields.map Prod.fst).Nodup := by
    rw [options_map_fst_fields]
    decide
  refine ⟨?_, ?_, ?_, ?_⟩
  · rw [hoik]
    intro hc
    have h2 := keys_serializeData_sub o.fields "options" hc
    rw [options_map_fst_fields] at h2
    simp at h2
  · intro v hv htr
    rw [hiv v]
    rw [Options.data, mem_serializeData]
    refine ⟨?_, htr⟩
    rw [← hv]
    exact hk
  · intro hvnone
    rw [hik]
    intro hc
    rw [Options.data] at hc
    rw [List.mem_map] at hc
    obtain ⟨⟨k1, w⟩, hmem, hfst⟩ := hc
    have hk1 : k1 = k := hfst
    subst hk1
    obtain ⟨hmem2, htr⟩ := (mem_serializeData o.fields k1 w).1 hmem
    have hw : (some w : Option PyVal) = ov :=
      nodup_fst_pair_unique o.fields hndf hmem2 hk
    rw [hvnone] at hw
    exact Option.noConfusion hw
  · intro v hv hfalse
    rw [hik]
    intro hc
    rw [Options.data] at hc
    rw [List.mem_map] at hc
    obtain ⟨⟨k1, w⟩, hmem, hfst⟩ := hc
    have hk1 : k1 = k := hfst
    subst hk1
    obtain ⟨hmem2, htr⟩ := (mem_serializeData o.fields k1 w).1 hmem
    have hw : (some w : Option PyVal) = ov :=
      nodup_fst_pair_unique o.fields hndf hmem2 hk
    rw [hv] at hw
    injection hw with hw
    rw [hw] at htr
    rw [htr] at hfalse
    exact Bool.noConfusion hfalse

/-- Witness for C9 (amended): a truthy time_to_live of 7 appears at the
top level of the body. -/
theorem C9_options_flattening_witness :
    ("time_to_live", BVal.v (PyVal.int 7)) ∈ c9wmsg.body :=
  (C9_options_flattening c9wmsg c9wopt rfl "time_to_live"
      (some (PyVal.int 7)) (by decide)).2.1 (PyVal.int 7) rfl rfl

end SimpleGcm
